import Mathlib

/-!
Verification of the federated secure-chat server node.

This development shallowly embeds the parts of the Rust server that the
checked properties concern: the identifier model (secure_chat/src/id.rs,
with the uuid crate string forms), the protocol message model
(server/src/messages/mod.rs), the node state (server/src/lib.rs AppState)
and the HTTP / protocol handlers (server/src/handlers/*.rs,
server/src/heartbeat.rs).

Rust HashMap tables are embedded as association lists with unique keys
(insert replaces, remove drops every binding of the key); VecDeque queues
are embedded as Lean lists (push_back appends, pop_front drops the head,
drain returns everything).  Instants are natural numbers, TimeDelta
timestamps are integers.  Handlers that in Rust mutate the shared
AppState behind a mutex are pure state transformers here; a handler whose
specification mentions network sends additionally returns the list of
envelopes it hands to peer sockets (empty whenever the Rust body contains
no send call).
-/

set_option autoImplicit false

namespace SecureChat

/-! ## Association lists (embedding of std::collections::HashMap) -/

/-- Lookup in an association list; HashMap::get. -/
def alookup {α β : Type} [DecidableEq α] : List (α × β) → α → Option β
  | [], _ => none
  | (k, v) :: rest, a => if k = a then some v else alookup rest a

/-- Insert-or-replace; HashMap::insert (value for an existing key is replaced). -/
def ainsert {α β : Type} [DecidableEq α] : List (α × β) → α → β → List (α × β)
  | [], a, b => [(a, b)]
  | (k, v) :: rest, a, b => if k = a then (a, b) :: rest else (k, v) :: ainsert rest a b

/-- Remove a key; HashMap::remove (drops every binding of the key). -/
def aremove {α β : Type} [DecidableEq α] (l : List (α × β)) (a : α) : List (α × β) :=
  l.filter (fun kv => decide (kv.1 ≠ a))

/-! ## UUID model (uuid crate, as used through secure_chat::id)

A Uuid value is embedded as its list of 32 nibbles (each below 16).
Uuid::parse_str accepts the simple (32 hex digits), hyphenated
(8-4-4-4-12), braced and urn string forms, with case-insensitive hex
digits; Display prints the lowercase hyphenated form. -/

/-- Value of one ASCII hex digit, case-insensitive (uuid crate hex table). -/
def hexVal (c : Char) : Option Nat :=
  if 48 ≤ c.toNat ∧ c.toNat ≤ 57 then some (c.toNat - 48)
  else if 97 ≤ c.toNat ∧ c.toNat ≤ 102 then some (c.toNat - 87)
  else if 65 ≤ c.toNat ∧ c.toNat ≤ 70 then some (c.toNat - 55)
  else none

/-- Lowercase hex digit for a nibble (uuid crate lower-hex encode table). -/
def hexChar (v : Nat) : Char :=
  if v < 10 then Char.ofNat (48 + v) else Char.ofNat (87 + v)

/-- Parse a run of hex digits into nibble values; fails on any non-hex char. -/
def parseHexList : List Char → Option (List Nat)
  | [] => some []
  | c :: cs =>
    match hexVal c, parseHexList cs with
    | some v, some vs => some (v :: vs)
    | _, _ => none

/-- A UUID as its 32 nibble values. -/
abbrev Uuid : Type := List Nat

/-- Well-formedness: 32 nibbles, each below 16. -/
def Uuid.valid (u : Uuid) : Prop := List.length u = 32 ∧ ∀ v ∈ u, v < 16

/-- Split a 36-char hyphenated UUID body into its five groups, checking the
hyphen positions (8, 13, 18, 23) and group lengths. -/
def hsplit (cs : List Char) :
    Option (List Char × List Char × List Char × List Char × List Char) :=
  match cs.drop 8 with
  | '-' :: t1 =>
    match t1.drop 4 with
    | '-' :: t2 =>
      match t2.drop 4 with
      | '-' :: t3 =>
        match t3.drop 4 with
        | '-' :: e =>
          if (cs.take 8).length = 8 ∧ (t1.take 4).length = 4 ∧ (t2.take 4).length = 4 ∧
              (t3.take 4).length = 4 ∧ e.length = 12 then
            some (cs.take 8, t1.take 4, t2.take 4, t3.take 4, e)
          else none
        | _ => none
      | _ => none
    | _ => none
  | _ => none

/-- Parse the hyphenated form: groups 8-4-4-4-12 of hex digits. -/
def parseHyphenated (cs : List Char) : Option (List Nat) :=
  match hsplit cs with
  | some (a, b, c, d, e) => parseHexList (a ++ b ++ c ++ d ++ e)
  | none => none

/-- Uuid::parse_str over the character list of the input: dispatches on
length to the simple, hyphenated, braced and urn forms. -/
def Uuid.parseChars (cs : List Char) : Option Uuid :=
  if cs.length = 32 then parseHexList cs
  else if cs.length = 36 then parseHyphenated cs
  else if cs.length = 38 then
    match cs with
    | '{' :: rest =>
      if rest.getLast? = some '}' then parseHyphenated rest.dropLast else none
    | _ => none
  else if cs.length = 45 then
    match cs with
    | 'u' :: 'r' :: 'n' :: ':' :: 'u' :: 'u' :: 'i' :: 'd' :: ':' :: rest =>
      parseHyphenated rest
    | _ => none
  else none

/-- Insert the four hyphens of the canonical form into a digit list. -/
def insertHyphens (ds : List Char) : List Char :=
  ds.take 8 ++ '-' :: ((ds.drop 8).take 4) ++ '-' :: ((ds.drop 12).take 4)
    ++ '-' :: ((ds.drop 16).take 4) ++ '-' :: ds.drop 20

/-- Display for Uuid: lowercase hyphenated form. -/
def Uuid.toChars (u : Uuid) : List Char := insertHyphens (u.map hexChar)

/-- Lowercase an uppercase ASCII hex letter, leave every other char alone. -/
def toLowerHex (c : Char) : Char :=
  if 65 ≤ c.toNat ∧ c.toNat ≤ 70 then Char.ofNat (c.toNat + 32) else c

/-- Strip the urn prefix or the braces from a UUID wire string. -/
def stripUuidWrappers (cs : List Char) : List Char :=
  if cs.length = 45 then cs.drop 9
  else if cs.length = 38 then (cs.drop 1).dropLast
  else cs

/-- Canonicalization of an accepted UUID string: strip wrappers, drop the
hyphens, lowercase the digits, and regroup as 8-4-4-4-12. The identifier
roundtrip property is stated up to this function. -/
def canonChars (cs : List Char) : List Char :=
  insertHyphens (((stripUuidWrappers cs).filter (fun c => !decide (c = '-'))).map toLowerHex)

/-! ## secure_chat::id -/

/-- UUID-based identifier for users and servers (struct Id(Uuid)). -/
abbrev Id : Type := Uuid

/-- Display for Id: the lowercase hyphenated UUID string. -/
def Id.toString (u : Id) : String := (Uuid.toChars u).asString

/-- Id::from_str / Id::try_from — Uuid::parse_str on the input. -/
def Id.from_str (s : String) : Option Id := Uuid.parseChars s.data

/-- Universal identifier: broadcast, UUID id, or bootstrap address. -/
inductive Identifier : Type where
  | Broadcast : Identifier
  | Id (id : Id) : Identifier
  | Bootstrap (addr : String) : Identifier
deriving DecidableEq

/-- Identifier::as_str (also its Display and Serialize form). -/
def Identifier.as_str : Identifier → String
  | Identifier.Id id => Id.toString id
  | Identifier.Broadcast => "*"
  | Identifier.Bootstrap addr => addr

/-- Identifier::as_id. -/
def Identifier.as_id : Identifier → Option SecureChat.Id
  | Identifier.Id id => some id
  | _ => none

/-- FromStr for Identifier: the literal star, else a UUID, else a
bootstrap address (never fails). -/
def Identifier.from_str (s : String) : Identifier :=
  if s = "*" then Identifier.Broadcast
  else
    match Id.from_str s with
    | some id => Identifier.Id id
    | none => Identifier.Bootstrap s

/-- Deserialize for Identifier: star, then the literal string public
(mapped to Id::default(), a freshly generated random UUID, passed here as
the fresh argument), then UUID, else bootstrap address. -/
def Identifier.deserialize (fresh : SecureChat.Id) (s : String) : Identifier :=
  if s = "*" then Identifier.Broadcast
  else if s = "public" then Identifier.Id fresh
  else
    match Id.from_str s with
    | some id => Identifier.Id id
    | none => Identifier.Bootstrap s

/-- Debug rendering of an Identifier (format with the debug specifier);
only ever used as an opaque error-detail string. -/
def Identifier.debugStr : Identifier → String
  | Identifier.Broadcast => "Broadcast"
  | Identifier.Id id => "Id(" ++ Id.toString id ++ ")"
  | Identifier.Bootstrap addr => "Bootstrap(" ++ addr ++ ")"

/-! ## serde_json::Value -/

/-- Free-form JSON value (serde_json::Value). -/
inductive Json : Type where
  | null : Json
  | bool (b : Bool) : Json
  | num (n : Int) : Json
  | str (s : String) : Json
  | arr (xs : List Json) : Json
  | obj (fields : List (String × Json)) : Json

/-- Map::get on a JSON object map. -/
def jget : List (String × Json) → String → Option Json
  | [], _ => none
  | (k, v) :: rest, key => if k = key then some v else jget rest key

/-- Value::as_str. -/
def Json.asStr : Json → Option String
  | Json.str s => some s
  | _ => none

/-! ## server::messages -/

/-- The closed payload-type set plus the InvalidType sentinel
(server/src/messages/mod.rs). -/
inductive PayloadType : Type where
  | InvalidType (raw : String)
  | ServerHelloJoin
  | ServerWelcome
  | ServerAnnounce
  | UserAdvertise
  | UserRemove
  | ServerDeliver
  | Heartbeat
  | UserHello
  | ListUsers
  | UserLogin
  | UserRegister
  | MsgDirect
  | UserDeliver
  | PublicChannelAdd
  | PublicChannelUpdated
  | PublicChannelKeyShare
  | MsgPublicChannel
  | FileStart
  | FileChunk
  | FileEnd
  | Ack
  | Error
deriving DecidableEq

/-- From<&str> for PayloadType: the wire tag match. -/
def PayloadType.fromStr (value : String) : PayloadType :=
  if value = "SERVER_HELLO_JOIN" then PayloadType.ServerHelloJoin
  else if value = "SERVER_WELCOME" then PayloadType.ServerWelcome
  else if value = "SERVER_ANNOUNCE" then PayloadType.ServerAnnounce
  else if value = "USER_ADVERTISE" then PayloadType.UserAdvertise
  else if value = "USER_REMOVE" then PayloadType.UserRemove
  else if value = "SERVER_DELIVER" then PayloadType.ServerDeliver
  else if value = "HEARTBEAT" then PayloadType.Heartbeat
  else if value = "USER_HELLO" then PayloadType.UserHello
  else if value = "LIST_USERS" then PayloadType.ListUsers
  else if value = "USER_LOGIN" then PayloadType.UserLogin
  else if value = "USER_REGISTER" then PayloadType.UserRegister
  else if value = "MSG_DIRECT" then PayloadType.MsgDirect
  else if value = "USER_DELIVER" then PayloadType.UserDeliver
  else if value = "PUBLIC_CHANNEL_ADD" then PayloadType.PublicChannelAdd
  else if value = "PUBLIC_CHANNEL_UPDATED" then PayloadType.PublicChannelUpdated
  else if value = "PUBLIC_CHANNEL_KEY_SHARE" then PayloadType.PublicChannelKeyShare
  else if value = "MSG_PUBLIC_CHANNEL" then PayloadType.MsgPublicChannel
  else if value = "FILE_START" then PayloadType.FileStart
  else if value = "FILE_CHUNK" then PayloadType.FileChunk
  else if value = "FILE_END" then PayloadType.FileEnd
  else if value = "ACK" then PayloadType.Ack
  else if value = "ERROR" then PayloadType.Error
  else PayloadType.InvalidType value

/-- The 22 wire tags of the closed set with their variants, in source
order. -/
def payloadTypePairs : List (String × PayloadType) :=
  [("SERVER_HELLO_JOIN", PayloadType.ServerHelloJoin),
   ("SERVER_WELCOME", PayloadType.ServerWelcome),
   ("SERVER_ANNOUNCE", PayloadType.ServerAnnounce),
   ("USER_ADVERTISE", PayloadType.UserAdvertise),
   ("USER_REMOVE", PayloadType.UserRemove),
   ("SERVER_DELIVER", PayloadType.ServerDeliver),
   ("HEARTBEAT", PayloadType.Heartbeat),
   ("USER_HELLO", PayloadType.UserHello),
   ("LIST_USERS", PayloadType.ListUsers),
   ("USER_LOGIN", PayloadType.UserLogin),
   ("USER_REGISTER", PayloadType.UserRegister),
   ("MSG_DIRECT", PayloadType.MsgDirect),
   ("USER_DELIVER", PayloadType.UserDeliver),
   ("PUBLIC_CHANNEL_ADD", PayloadType.PublicChannelAdd),
   ("PUBLIC_CHANNEL_UPDATED", PayloadType.PublicChannelUpdated),
   ("PUBLIC_CHANNEL_KEY_SHARE", PayloadType.PublicChannelKeyShare),
   ("MSG_PUBLIC_CHANNEL", PayloadType.MsgPublicChannel),
   ("FILE_START", PayloadType.FileStart),
   ("FILE_CHUNK", PayloadType.FileChunk),
   ("FILE_END", PayloadType.FileEnd),
   ("ACK", PayloadType.Ack),
   ("ERROR", PayloadType.Error)]

/-- The 22 wire tags of the closed set. -/
def payloadTypeTags : List String := payloadTypePairs.map Prod.fst

/-- Debug rendering of a PayloadType (format with the debug specifier);
only ever used as an opaque error-detail string. -/
def PayloadType.debugName : PayloadType → String
  | PayloadType.InvalidType raw => "InvalidType(" ++ raw ++ ")"
  | PayloadType.ServerHelloJoin => "ServerHelloJoin"
  | PayloadType.ServerWelcome => "ServerWelcome"
  | PayloadType.ServerAnnounce => "ServerAnnounce"
  | PayloadType.UserAdvertise => "UserAdvertise"
  | PayloadType.UserRemove => "UserRemove"
  | PayloadType.ServerDeliver => "ServerDeliver"
  | PayloadType.Heartbeat => "Heartbeat"
  | PayloadType.UserHello => "UserHello"
  | PayloadType.ListUsers => "ListUsers"
  | PayloadType.UserLogin => "UserLogin"
  | PayloadType.UserRegister => "UserRegister"
  | PayloadType.MsgDirect => "MsgDirect"
  | PayloadType.UserDeliver => "UserDeliver"
  | PayloadType.PublicChannelAdd => "PublicChannelAdd"
  | PayloadType.PublicChannelUpdated => "PublicChannelUpdated"
  | PayloadType.PublicChannelKeyShare => "PublicChannelKeyShare"
  | PayloadType.MsgPublicChannel => "MsgPublicChannel"
  | PayloadType.FileStart => "FileStart"
  | PayloadType.FileChunk => "FileChunk"
  | PayloadType.FileEnd => "FileEnd"
  | PayloadType.Ack => "Ack"
  | PayloadType.Error => "Error"

/-- The protocol message envelope (struct Message); ts is the TimeDelta
timestamp in milliseconds, sig the base64 signature string. -/
structure Message : Type where
  payload_type : PayloadType
  from_ : Identifier
  to_ : Identifier
  ts : Int
  payload : Json
  sig : String

/-- Client-induced errors (server/src/errors.rs ClientError), as wrapped
into HandlerError by the handlers. -/
inductive ClientError : Type where
  | InvalidPayloadType (expected : String) (actual : String)
  | PayloadExtraction (msg : String)
  | Deserialization (msg : String)
deriving DecidableEq

/-! ## Node state (server/src/lib.rs AppState)

The config, crypto handle and connection sockets are not value-relevant
to the verified handlers and are omitted; ConnectionInfo keeps only its
pinned pubkey. -/

/-- transport::ConnectionInfo (socket and conn_type omitted; default and
new() both have no pinned pubkey). -/
structure ConnectionInfo : Type where
  pubkey : Option String
deriving DecidableEq

/-- A recorded public-channel text message
(handlers/public_channel_message.rs PublicChannelMessagePayload). -/
structure PublicChannelMessagePayload : Type where
  channel_id : String
  from_ : String
  content : String
  sent_at : Int
deriving DecidableEq

/-- The shared node state. -/
structure AppState : Type where
  user_heartbeat : List (Id × Nat)
  pending_messages : List (Id × List Message)
  public_channel_members : List Id
  public_channel_version : Nat
  public_channel_key : Option String
  public_channel_id : Option String
  public_channel_name : Option String
  public_channel_description : Option String
  public_channel_messages : List PublicChannelMessagePayload
  public_channel_file_events : List Message
  bootstrapped : Bool
  server_id : Id
  server_pubkey : String
  servers : List (Id × ConnectionInfo)
  server_addrs : List (Id × (String × Nat))
  server_pubkeys : List (Id × String)
  local_users : List (Id × ConnectionInfo)
  user_locations : List (Id × String)
  user_pubkeys : List (Id × String)

/-! ## Direct messages (handlers/direct_message.rs) -/

/-- The USER_DELIVER envelope composed by direct_message_http for a local
recipient (lines 75-124): sender display name from user_locations with
the sender id string as fallback, sender_pub / ciphertext / content_sig
lifted out of the inbound payload, authored by this server with the
placeholder signature. -/
def deliver_msg (server_id : Id) (user_locations : List (Id × String))
    (from_id to_id : Id) (msg : Message) : Message :=
  let sender_id_str := Id.toString from_id
  let sender_display_name := (alookup user_locations from_id).getD sender_id_str
  let sender_pub :=
    match msg.payload with
    | Json.obj map => ((jget map "sender_pub").bind Json.asStr).getD ""
    | _ => ""
  let ciphertext :=
    match msg.payload with
    | Json.obj map => (jget map "ciphertext").getD Json.null
    | _ => Json.null
  let content_sig :=
    match msg.payload with
    | Json.obj map => (jget map "content_sig").getD Json.null
    | _ => Json.null
  { payload_type := PayloadType.UserDeliver
    from_ := Identifier.Id server_id
    to_ := Identifier.Id to_id
    ts := msg.ts
    payload := Json.obj
      [("sender", Json.str sender_display_name),
       ("sender_pub", Json.str sender_pub),
       ("ciphertext", ciphertext),
       ("content_sig", content_sig)]
    sig := "server_sig_placeholder" }

/-- HashMap entry(k).or_insert_with(VecDeque::new) followed by
push_back(m). -/
def entryPush (l : List (Id × List Message)) (a : Id) (m : Message) :
    List (Id × List Message) :=
  match alookup l a with
  | some q => ainsert l a (q ++ [m])
  | none => ainsert l a [m]

/-- HTTP handler for POST /api/direct_message.  Only MSG_DIRECT envelopes
with plain Id endpoints are accepted; a recipient that is a key of
local_users (compared by string representation) gets a USER_DELIVER
envelope queued; any other recipient is an error — the function contains
no peer forwarding. -/
def direct_message_http (st : AppState) (msg : Message) :
    Except ClientError AppState :=
  if msg.payload_type ≠ PayloadType.MsgDirect then
    Except.error (ClientError.InvalidPayloadType "MsgDirect" msg.payload_type.debugName)
  else
    match msg.from_ with
    | Identifier.Id from_id =>
      match msg.to_ with
      | Identifier.Id to_id =>
        let to_id_str := Id.toString to_id
        let found := st.local_users.any (fun kv => decide (Id.toString kv.1 = to_id_str))
        if found then
          let dm := deliver_msg st.server_id st.user_locations from_id to_id msg
          Except.ok { st with pending_messages := entryPush st.pending_messages to_id dm }
        else
          Except.error (ClientError.InvalidPayloadType "Connected local user" to_id_str)
      | other => Except.error (ClientError.InvalidPayloadType "Identifier::Id" other.debugStr)
    | other => Except.error (ClientError.InvalidPayloadType "Identifier::Id" other.debugStr)

/-- HTTP handler for POST /api/poll_direct_messages: parse the user id,
then drain that user's whole pending queue (entry + or_insert leaves an
empty queue behind). -/
def poll_direct_messages_http (st : AppState) (user_id : String) :
    Except ClientError (AppState × List Message) :=
  match Id.from_str user_id with
  | none => Except.error (ClientError.InvalidPayloadType "valid user_id" user_id)
  | some id =>
    let queue := (alookup st.pending_messages id).getD []
    Except.ok ({ st with pending_messages := ainsert st.pending_messages id [] }, queue)

/-! ## Presence (handlers/user_hello.rs) -/

/-- meta field of the user-hello HTTP payload. -/
structure MetaField : Type where
  display_name : Option String
deriving DecidableEq

/-- Body of POST /api/user_hello. -/
structure UserHelloHttpPayload : Type where
  user_id : String
  client : String
  pubkey : String
  enc_pubkey : String
  meta : Option MetaField
deriving DecidableEq

/-- HTTP handler for POST /api/user_hello (user_hello_http): pins the
supplied pubkey when non-empty, inserts the user into local_users, stamps
the heartbeat instant, and records the display name (the raw id string
when absent) in user_locations.  The middle component is the list of
envelopes sent to peer servers: the Rust body performs no sends. -/
def user_hello_http (st : AppState) (now : Nat) (payload : UserHelloHttpPayload) :
    AppState × List Message × String :=
  match Id.from_str payload.user_id with
  | none => (st, [], "invalid id")
  | some id =>
    let conn : ConnectionInfo :=
      { pubkey := if payload.pubkey ≠ "" then some payload.pubkey else none }
    let st := { st with local_users := ainsert st.local_users id conn }
    let st := { st with user_heartbeat := ainsert st.user_heartbeat id now }
    let display_name := payload.meta.bind (fun m => m.display_name)
    let st :=
      match display_name with
      | some name => { st with user_locations := ainsert st.user_locations id name }
      | none => { st with user_locations := ainsert st.user_locations id payload.user_id }
    (st, [], "ok")

/-! ## Liveness sweep (server/src/heartbeat.rs) -/

/-- Body of the removal loop: drop one stale user from the three tables. -/
def sweepRemove (s : AppState) (id : Id) : AppState :=
  { s with
    local_users := aremove s.local_users id
    user_locations := aremove s.user_locations id
    user_heartbeat := aremove s.user_heartbeat id }

/-- One tick of the 15-second cleanup task: collect every user whose last
heartbeat is more than 45 seconds old, then drop each from local_users,
user_locations and user_heartbeat.  The second component is the list of
envelopes gossiped to peers: the Rust body sends nothing. -/
def heartbeat_cleanup_tick (st : AppState) (now : Nat) : AppState × List Message :=
  let to_remove := (st.user_heartbeat.filter (fun kv => decide (45 < now - kv.2))).map Prod.fst
  (to_remove.foldl sweepRemove st, [])

/-! ## User removal (handlers/user_remove.rs) -/

/-- Payload of a USER_REMOVE message. -/
structure UserRemovePayload : Type where
  user_id : String
  server_id : String
deriving DecidableEq

/-- try_extract_payload for UserRemovePayload: both string fields must be
present (extra fields are ignored by serde). -/
def extractUserRemovePayload (j : Json) : Option UserRemovePayload :=
  match j with
  | Json.obj map =>
    match jget map "user_id", jget map "server_id" with
    | some (Json.str u), some (Json.str s) => some { user_id := u, server_id := s }
    | _, _ => none
  | _ => none

/-- handle_user_remove: after type and payload checks, remove the user
from the location mapping only when it still points at the removing
server; otherwise leave the table alone.  Responds with an ok status. -/
def handle_user_remove (st : AppState) (msg : Message) :
    Except ClientError (AppState × String) :=
  if msg.payload_type ≠ PayloadType.UserRemove then
    Except.error (ClientError.InvalidPayloadType "UserRemove" msg.payload_type.debugName)
  else
    match extractUserRemovePayload msg.payload with
    | none => Except.error (ClientError.Deserialization "missing or ill-typed field")
    | some payload =>
      match Id.from_str payload.user_id with
      | none => Except.error (ClientError.PayloadExtraction "Invalid user_id")
      | some user_id =>
        match alookup st.user_locations user_id with
        | some current_server_id =>
          if current_server_id = payload.server_id then
            Except.ok ({ st with user_locations := aremove st.user_locations user_id }, "ok")
          else
            Except.ok (st, "ok")
        | none => Except.ok (st, "ok")

/-! ## Federation join (handlers/server_hello_join.rs) -/

/-- Payload of SERVER_HELLO_JOIN. -/
structure ServerHelloJoinPayload : Type where
  host : String
  port : Nat
  pubkey : String
deriving DecidableEq

/-- try_extract_payload for ServerHelloJoinPayload: host and pubkey are
strings, port a u16 number. -/
def extractServerHelloJoinPayload (j : Json) : Option ServerHelloJoinPayload :=
  match j with
  | Json.obj map =>
    match jget map "host", jget map "port", jget map "pubkey" with
    | some (Json.str h), some (Json.num n), some (Json.str pk) =>
      if 0 ≤ n ∧ n < 65536 then some { host := h, port := n.toNat, pubkey := pk }
      else none
    | _, _, _ => none
  | _ => none

/-- A servers entry of the SERVER_WELCOME payload. -/
structure ServerInfo : Type where
  server_id : String
  host : String
  port : Nat
  pubkey : String
deriving DecidableEq

/-- A clients entry of the SERVER_WELCOME payload. -/
structure ClientInfo : Type where
  user_id : String
  pubkey : String
  server_id : String
deriving DecidableEq

/-- Payload of SERVER_WELCOME. -/
structure ServerWelcomePayload : Type where
  assigned_id : String
  servers : List ServerInfo
  clients : List ClientInfo
deriving DecidableEq

/-- handle_server_hello_join: record the joiner (connection, address,
pubkey), then compose the SERVER_WELCOME payload — the joiner keeps its
self-claimed id, the servers list walks server_addrs skipping the joiner
and any peer without a pinned pubkey, the clients list walks
user_locations skipping users without a known pubkey.  The signing and
socket send of the composed WELCOME are I/O and are outside this
embedding; the composed payload is returned. -/
def handle_server_hello_join (st : AppState) (msg : Message) :
    Except ClientError (AppState × ServerWelcomePayload) :=
  if msg.payload_type ≠ PayloadType.ServerHelloJoin then
    Except.error (ClientError.InvalidPayloadType "ServerHelloJoin" msg.payload_type.debugName)
  else
    match extractServerHelloJoinPayload msg.payload with
    | none => Except.error (ClientError.Deserialization "missing or ill-typed field")
    | some payload =>
      match msg.from_.as_id with
      | none => Except.error (ClientError.PayloadExtraction "Invalid sender ID")
      | some joining_server_id =>
        let st := { st with
          servers := ainsert st.servers joining_server_id { pubkey := none }
          server_addrs := ainsert st.server_addrs joining_server_id (payload.host, payload.port)
          server_pubkeys := ainsert st.server_pubkeys joining_server_id payload.pubkey }
        let servers := st.server_addrs.filterMap (fun kv =>
          if kv.1 ≠ joining_server_id then
            match alookup st.server_pubkeys kv.1 with
            | some pk => some { server_id := Id.toString kv.1, host := kv.2.1,
                                port := kv.2.2, pubkey := pk }
            | none => none
          else none)
        let clients := st.user_locations.filterMap (fun kv =>
          match alookup st.user_pubkeys kv.1 with
          | some pk => some { user_id := Id.toString kv.1, pubkey := pk, server_id := kv.2 }
          | none => none)
        Except.ok (st, { assigned_id := Id.toString joining_server_id,
                         servers := servers, clients := clients })

/-! ## Public channel rings (handlers/public_channel_message.rs) -/

/-- Body of POST /api/public_channel/message. -/
structure PublicChannelMessageHttpRequest : Type where
  channel_id : String
  from_ : String
  content : String
deriving DecidableEq

/-- Response of POST /api/public_channel/message. -/
structure PublicChannelMessageHttpResponse : Type where
  status : String
  delivered : Bool
deriving DecidableEq

/-- public_channel_message_http: append the post (stamped with the
current epoch second) to the text ring, evicting the front entry once the
ring holds 100. -/
def public_channel_message_http (st : AppState) (now : Int)
    (req : PublicChannelMessageHttpRequest) :
    AppState × PublicChannelMessageHttpResponse :=
  let payload : PublicChannelMessagePayload :=
    { channel_id := req.channel_id, from_ := req.from_,
      content := req.content, sent_at := now }
  let ring := if st.public_channel_messages.length ≥ 100
    then st.public_channel_messages.tail else st.public_channel_messages
  ({ st with public_channel_messages := ring ++ [payload] },
   { status := "ok", delivered := true })

/-- Shared body of the three public-channel file-event posts: append the
envelope to the file-event ring, evicting the front entry once the ring
holds 100. -/
def public_channel_file_push (st : AppState) (msg : Message) : AppState × String :=
  let ring := if st.public_channel_file_events.length ≥ 100
    then st.public_channel_file_events.tail else st.public_channel_file_events
  ({ st with public_channel_file_events := ring ++ [msg] }, "ok")

/-- POST /api/public_channel/file_start. -/
def public_channel_file_start (st : AppState) (msg : Message) : AppState × String :=
  public_channel_file_push st msg

/-- POST /api/public_channel/file_chunk. -/
def public_channel_file_chunk (st : AppState) (msg : Message) : AppState × String :=
  public_channel_file_push st msg

/-- POST /api/public_channel/file_end. -/
def public_channel_file_end (st : AppState) (msg : Message) : AppState × String :=
  public_channel_file_push st msg

/-! ## Direct file transfer (handlers/file_transfer_start.rs etc.) -/

/-- Shared body of the three direct file-event posts: queue the raw
envelope for the recipient on the same pending_messages queue the direct
messages use. -/
def file_event_push (st : AppState) (msg : Message) : AppState × String :=
  match msg.to_ with
  | Identifier.Id to_id =>
    ({ st with pending_messages := entryPush st.pending_messages to_id msg }, "ok")
  | _ => (st, "invalid to id")

/-- POST /api/file_start (file_transfer_start_http). -/
def file_transfer_start_http (st : AppState) (msg : Message) : AppState × String :=
  file_event_push st msg

/-- POST /api/file_chunk (file_transfer_chunk_http). -/
def file_transfer_chunk_http (st : AppState) (msg : Message) : AppState × String :=
  file_event_push st msg

/-- POST /api/file_end (file_transfer_end_http). -/
def file_transfer_end_http (st : AppState) (msg : Message) : AppState × String :=
  file_event_push st msg

/-- POST /api/poll_file_events (poll_file_events_http): read user_id out
of the free-form JSON body, parse it, and drain that user's whole pending
queue; on any failure return the empty list without touching state. -/
def poll_file_events_http (st : AppState) (payload : Json) : AppState × List Message :=
  match payload with
  | Json.obj map =>
    match (jget map "user_id").bind Json.asStr with
    | none => (st, [])
    | some s =>
      match Id.from_str s with
      | none => (st, [])
      | some id =>
        let queue := (alookup st.pending_messages id).getD []
        ({ st with pending_messages := ainsert st.pending_messages id [] }, queue)
  | _ => (st, [])

/-! ## Iteration devices for stating the mailbox-drain property -/

/-- Route a batch of direct messages in order, stopping at the first
error (each one is an independent POST /api/direct_message). -/
def routeAll (st : AppState) : List Message → Except ClientError AppState
  | [] => Except.ok st
  | m :: ms =>
    match direct_message_http st m with
    | Except.ok st1 => routeAll st1 ms
    | Except.error e => Except.error e

/-- The USER_DELIVER envelope a routed message turns into, keyed on the
message's own sender id (defensive identity on non-Id senders). -/
def deliverOf (server_id : Id) (user_locations : List (Id × String)) (u : Id)
    (m : Message) : Message :=
  match m.from_ with
  | Identifier.Id f => deliver_msg server_id user_locations f u m
  | _ => m

/-! ## Concrete fixtures used by witnesses and counterexamples -/

/-- Nibbles of 550e8400-e29b-41d4-a716-446655440000. -/
def uuidA : Id :=
  [5,5,0,14,8,4,0,0, 14,2,9,11, 4,1,13,4, 10,7,1,6, 4,4,6,6,5,5,4,4,0,0,0,0]

/-- Nibbles of 11111111-2222-3333-4444-555555555555. -/
def uuidB : Id :=
  [1,1,1,1,1,1,1,1, 2,2,2,2, 3,3,3,3, 4,4,4,4, 5,5,5,5,5,5,5,5,5,5,5,5]

/-- Nibbles of 99999999-8888-7777-6666-000000000001. -/
def uuidC : Id :=
  [9,9,9,9,9,9,9,9, 8,8,8,8, 7,7,7,7, 6,6,6,6, 0,0,0,0,0,0,0,0,0,0,0,1]

/-- A node state with empty tables, homed at server uuidC. -/
def emptyState : AppState :=
  { user_heartbeat := []
    pending_messages := []
    public_channel_members := []
    public_channel_version := 0
    public_channel_key := none
    public_channel_id := none
    public_channel_name := none
    public_channel_description := none
    public_channel_messages := []
    public_channel_file_events := []
    bootstrapped := false
    server_id := uuidC
    server_pubkey := "C-pubkey"
    servers := []
    server_addrs := []
    server_pubkeys := []
    local_users := []
    user_locations := []
    user_pubkeys := [] }

/-! ## Fixture states and messages for the claim witnesses -/

/-- Fixture: a text ring and a file ring already holding 100 entries. -/
def stRing : AppState :=
  { emptyState with
    public_channel_messages := List.replicate 100
      { channel_id := "c", from_ := "u", content := "m", sent_at := 0 }
    public_channel_file_events := List.replicate 100
      { payload_type := PayloadType.FileStart, from_ := Identifier.Broadcast,
        to_ := Identifier.Broadcast, ts := 0, payload := Json.null, sig := "" } }

/-- Fixture: a state that maps uuidA to the server string of uuidB. -/
def stRemove : AppState :=
  { emptyState with user_locations := [(uuidA, "11111111-2222-3333-4444-555555555555")] }

/-- Fixture: a USER_REMOVE message for uuidA sent by server uuidB. -/
def msgRemove : Message :=
  { payload_type := PayloadType.UserRemove
    from_ := Identifier.Id uuidB
    to_ := Identifier.Broadcast
    ts := 5678
    payload := Json.obj
      [("user_id", Json.str "550e8400-e29b-41d4-a716-446655440000"),
       ("server_id", Json.str "11111111-2222-3333-4444-555555555555")]
    sig := "" }

/-- Fixture: a USER_DELIVER envelope queued for uuidA. -/
def msgDeliverQ : Message :=
  { payload_type := PayloadType.UserDeliver
    from_ := Identifier.Id uuidC
    to_ := Identifier.Id uuidA
    ts := 1
    payload := Json.obj [("sender", Json.str "bob"), ("sender_pub", Json.str "pk"),
      ("ciphertext", Json.str "ct"), ("content_sig", Json.str "cs")]
    sig := "server_sig_placeholder" }

/-- Fixture: a FILE_START envelope addressed to uuidA. -/
def msgFileStartQ : Message :=
  { payload_type := PayloadType.FileStart
    from_ := Identifier.Id uuidB
    to_ := Identifier.Id uuidA
    ts := 2
    payload := Json.obj [("file_id", Json.str "f1"), ("filename", Json.str "a.txt"),
      ("filesize", Json.num 1024)]
    sig := "" }

/-- Fixture: a state whose pending queue for uuidA mixes both envelope kinds. -/
def stQueue : AppState :=
  { emptyState with pending_messages := [(uuidA, [msgDeliverQ, msgFileStartQ])] }

/-- Fixture: the poll_file_events body naming uuidA. -/
def mapQ : List (String × Json) :=
  [("user_id", Json.str "550e8400-e29b-41d4-a716-446655440000")]

/-- Fixture: uuidA is homed on peer server uuidB (string form), which is a
known peer; uuidA is not in local_users. -/
def stPeerHome : AppState :=
  { emptyState with
    user_locations := [(uuidA, "11111111-2222-3333-4444-555555555555")]
    servers := [(uuidB, { pubkey := some "B-pubkey" })]
    server_addrs := [(uuidB, ("127.0.0.1", 9000))]
    server_pubkeys := [(uuidB, "B-pubkey")] }

/-- Fixture: a MSG_DIRECT from uuidC-hosted sender to uuidA. -/
def msgDirectToRemote : Message :=
  { payload_type := PayloadType.MsgDirect
    from_ := Identifier.Id uuidC
    to_ := Identifier.Id uuidA
    ts := 1234
    payload := Json.obj [("ciphertext", Json.str "ct"), ("sender_pub", Json.str "pk"),
      ("content_sig", Json.str "cs")]
    sig := "" }

/-- Fixture: uuidA is a local user with a pinned pubkey; uuidC has the
display name Carol recorded. -/
def stLocalHome : AppState :=
  { emptyState with
    local_users := [(uuidA, { pubkey := some "A-pubkey" })]
    user_locations := [(uuidC, "Carol")] }

/-- Fixture: a MSG_DIRECT from uuidC to the local user uuidA. -/
def msgDirectToLocal : Message :=
  { payload_type := PayloadType.MsgDirect
    from_ := Identifier.Id uuidC
    to_ := Identifier.Id uuidA
    ts := 1234
    payload := Json.obj [("ciphertext", Json.str "ct"), ("sender_pub", Json.str "pk"),
      ("content_sig", Json.str "cs")]
    sig := "" }

/-- Fixture: a node that already knows peer uuidB. -/
def stHello : AppState :=
  { emptyState with
    servers := [(uuidB, { pubkey := some "B-pubkey" })]
    server_addrs := [(uuidB, ("127.0.0.1", 9000))]
    server_pubkeys := [(uuidB, "B-pubkey")] }

/-- Fixture: the user-hello body for uuidA with display name Alice. -/
def payloadHello : UserHelloHttpPayload :=
  { user_id := "550e8400-e29b-41d4-a716-446655440000"
    client := "cli-v1"
    pubkey := "A-pubkey"
    enc_pubkey := "A-enc-pubkey"
    meta := some { display_name := some "Alice" } }

/-- Fixture: uuidA is local with a stale heartbeat; peer uuidB is known. -/
def stSweep : AppState :=
  { emptyState with
    user_heartbeat := [(uuidA, 10)]
    local_users := [(uuidA, { pubkey := some "A-pubkey" })]
    user_locations := [(uuidA, "Alice")]
    servers := [(uuidB, { pubkey := some "B-pubkey" })] }

/-- Nibbles of deadbeef-0000-0000-0000-000000000000. -/
def uuidD : Id :=
  [13,14,10,13,11,14,14,15, 0,0,0,0, 0,0,0,0, 0,0,0,0, 0,0,0,0,0,0,0,0,0,0,0,0]

/-- Fixture: a responder that knows peer uuidB and hosts user uuidA. -/
def stJoin : AppState :=
  { emptyState with
    servers := [(uuidB, { pubkey := some "B-pubkey" })]
    server_addrs := [(uuidB, ("10.0.0.2", 8081))]
    server_pubkeys := [(uuidB, "B-pubkey")]
    user_locations := [(uuidA, "local")]
    user_pubkeys := [(uuidA, "A-pubkey")] }

/-- Fixture: the HELLO_JOIN sent by joiner uuidD. -/
def msgJoin : Message :=
  { payload_type := PayloadType.ServerHelloJoin
    from_ := Identifier.Id uuidD
    to_ := Identifier.Bootstrap "10.0.0.1:8080"
    ts := 0
    payload := Json.obj [("host", Json.str "10.0.0.3"), ("port", Json.num 8082),
      ("pubkey", Json.str "D-pubkey")]
    sig := "" }

/-- Fixture: a second MSG_DIRECT from uuidC to the local user uuidA. -/
def msgDirectToLocal2 : Message :=
  { payload_type := PayloadType.MsgDirect
    from_ := Identifier.Id uuidC
    to_ := Identifier.Id uuidA
    ts := 1235
    payload := Json.obj [("ciphertext", Json.str "ct2"), ("sender_pub", Json.str "pk"),
      ("content_sig", Json.str "cs2")]
    sig := "" }

/-! # Theorems -/

/-! ## Association-list facts -/

theorem alookup_ainsert_self {α β : Type} [DecidableEq α]
    (l : List (α × β)) (a : α) (b : β) : alookup (ainsert l a b) a = some b := by
  induction l with
  | nil => simp [ainsert, alookup]
  | cons kv rest ih =>
    by_cases h : kv.1 = a
    · simp [ainsert, alookup, h]
    · simp [ainsert, alookup, h, ih]

theorem alookup_ainsert_ne {α β : Type} [DecidableEq α]
    (l : List (α × β)) (a x : α) (b : β) (hne : a ≠ x) :
    alookup (ainsert l a b) x = alookup l x := by
  induction l with
  | nil => simp [ainsert, alookup, hne]
  | cons kv rest ih =>
    by_cases h : kv.1 = a
    · simp [ainsert, alookup, h, hne]
    · simp only [ainsert, h, if_false]
      by_cases h2 : kv.1 = x
      · simp [alookup, h2]
      · simp [alookup, h2, ih]

theorem alookup_aremove_self {α β : Type} [DecidableEq α]
    (l : List (α × β)) (a : α) : alookup (aremove l a) a = none := by
  induction l with
  | nil => rfl
  | cons kv rest ih =>
    by_cases h : kv.1 = a
    · simpa [aremove, h] using ih
    · simpa [aremove, alookup, h] using ih

theorem alookup_aremove_none {α β : Type} [DecidableEq α]
    (l : List (α × β)) (a x : α) (h : alookup l x = none) :
    alookup (aremove l a) x = none := by
  induction l with
  | nil => rfl
  | cons kv rest ih =>
    by_cases hx : kv.1 = x
    · simp [alookup, hx] at h
    · simp only [alookup, hx, if_false] at h
      by_cases ha : kv.1 = a
      · simpa [aremove, ha] using ih h
      · simpa [aremove, alookup, ha, hx] using ih h

theorem alookup_eq_none_of_not_mem_keys {α β : Type} [DecidableEq α]
    (l : List (α × β)) (x : α) (h : x ∉ l.map Prod.fst) : alookup l x = none := by
  induction l with
  | nil => rfl
  | cons kv rest ih =>
    simp only [List.map_cons, List.mem_cons] at h
    push_neg at h
    have hne : kv.1 ≠ x := fun e => h.1 e.symm
    simp [alookup, hne, ih h.2]

set_option maxHeartbeats 1600000 in
/-- C8: payload-type tag parsing. -/
theorem C8_payload_type_parsing :
    (∀ p ∈ payloadTypePairs, PayloadType.fromStr p.1 = p.2) ∧
    (∀ s : String, s ∉ payloadTypeTags → PayloadType.fromStr s = PayloadType.InvalidType s) := by
  constructor
  · decide
  · intro s hs
    have h1 : s ≠ "SERVER_HELLO_JOIN" := by rintro rfl; exact hs (by decide)
    have h2 : s ≠ "SERVER_WELCOME" := by rintro rfl; exact hs (by decide)
    have h3 : s ≠ "SERVER_ANNOUNCE" := by rintro rfl; exact hs (by decide)
    have h4 : s ≠ "USER_ADVERTISE" := by rintro rfl; exact hs (by decide)
    have h5 : s ≠ "USER_REMOVE" := by rintro rfl; exact hs (by decide)
    have h6 : s ≠ "SERVER_DELIVER" := by rintro rfl; exact hs (by decide)
    have h7 : s ≠ "HEARTBEAT" := by rintro rfl; exact hs (by decide)
    have h8 : s ≠ "USER_HELLO" := by rintro rfl; exact hs (by decide)
    have h9 : s ≠ "LIST_USERS" := by rintro rfl; exact hs (by decide)
    have h10 : s ≠ "USER_LOGIN" := by rintro rfl; exact hs (by decide)
    have h11 : s ≠ "USER_REGISTER" := by rintro rfl; exact hs (by decide)
    have h12 : s ≠ "MSG_DIRECT" := by rintro rfl; exact hs (by decide)
    have h13 : s ≠ "USER_DELIVER" := by rintro rfl; exact hs (by decide)
    have h14 : s ≠ "PUBLIC_CHANNEL_ADD" := by rintro rfl; exact hs (by decide)
    have h15 : s ≠ "PUBLIC_CHANNEL_UPDATED" := by rintro rfl; exact hs (by decide)
    have h16 : s ≠ "PUBLIC_CHANNEL_KEY_SHARE" := by rintro rfl; exact hs (by decide)
    have h17 : s ≠ "MSG_PUBLIC_CHANNEL" := by rintro rfl; exact hs (by decide)
    have h18 : s ≠ "FILE_START" := by rintro rfl; exact hs (by decide)
    have h19 : s ≠ "FILE_CHUNK" := by rintro rfl; exact hs (by decide)
    have h20 : s ≠ "FILE_END" := by rintro rfl; exact hs (by decide)
    have h21 : s ≠ "ACK" := by rintro rfl; exact hs (by decide)
    have h22 : s ≠ "ERROR" := by rintro rfl; exact hs (by decide)
    unfold PayloadType.fromStr
    rw [if_neg h1, if_neg h2, if_neg h3, if_neg h4, if_neg h5, if_neg h6,
        if_neg h7, if_neg h8, if_neg h9, if_neg h10, if_neg h11, if_neg h12,
        if_neg h13, if_neg h14, if_neg h15, if_neg h16, if_neg h17, if_neg h18,
        if_neg h19, if_neg h20, if_neg h21, if_neg h22]

theorem C8_payload_type_parsing_witness :
    (("MSG_DIRECT", PayloadType.MsgDirect) ∈ payloadTypePairs ∧
      PayloadType.fromStr "MSG_DIRECT" = PayloadType.MsgDirect) ∧
    ("msg_direct" ∉ payloadTypeTags ∧
      PayloadType.fromStr "msg_direct" = PayloadType.InvalidType "msg_direct") ∧
    ("Msg_Direct" ∉ payloadTypeTags ∧
      PayloadType.fromStr "Msg_Direct" = PayloadType.InvalidType "Msg_Direct") ∧
    (" MSG_DIRECT " ∉ payloadTypeTags ∧
      PayloadType.fromStr " MSG_DIRECT " = PayloadType.InvalidType " MSG_DIRECT ") :=
  ⟨⟨by decide, C8_payload_type_parsing.1 ("MSG_DIRECT", PayloadType.MsgDirect) (by decide)⟩,
   ⟨by decide, C8_payload_type_parsing.2 "msg_direct" (by decide)⟩,
   ⟨by decide, C8_payload_type_parsing.2 "Msg_Direct" (by decide)⟩,
   ⟨by decide, C8_payload_type_parsing.2 " MSG_DIRECT " (by decide)⟩⟩

/-- C9: both public-channel rings stay within 100 entries; at the bound the
oldest entry is evicted. -/
theorem C9_ring_bound (st : AppState) (now : Int)
    (req : PublicChannelMessageHttpRequest) (msg : Message) :
    (st.public_channel_messages.length ≤ 100 →
      (public_channel_message_http st now req).1.public_channel_messages.length ≤ 100) ∧
    (st.public_channel_messages.length = 100 →
      (public_channel_message_http st now req).1.public_channel_messages =
        st.public_channel_messages.tail ++
          [{ channel_id := req.channel_id, from_ := req.from_,
             content := req.content, sent_at := now }]) ∧
    (st.public_channel_file_events.length ≤ 100 →
      (public_channel_file_start st msg).1.public_channel_file_events.length ≤ 100 ∧
      (public_channel_file_chunk st msg).1.public_channel_file_events.length ≤ 100 ∧
      (public_channel_file_end st msg).1.public_channel_file_events.length ≤ 100) ∧
    (st.public_channel_file_events.length = 100 →
      (public_channel_file_start st msg).1.public_channel_file_events =
        st.public_channel_file_events.tail ++ [msg]) := by
  have hlen : ∀ (α : Type) (l : List α) (x : α), l.length ≤ 100 →
      ((if l.length ≥ 100 then l.tail else l) ++ [x]).length ≤ 100 := by
    intro α l x h
    by_cases hc : l.length ≥ 100
    · simp only [hc, if_true, List.length_append, List.length_tail, List.length_cons,
        List.length_nil]
      omega
    · simp only [hc, if_false, List.length_append, List.length_cons, List.length_nil]
      omega
  refine ⟨?_, ?_, ?_, ?_⟩
  · intro h
    simpa [public_channel_message_http] using
      hlen _ st.public_channel_messages
        { channel_id := req.channel_id, from_ := req.from_,
          content := req.content, sent_at := now } h
  · intro h
    have hc : st.public_channel_messages.length ≥ 100 := by omega
    simp [public_channel_message_http, hc]
  · intro h
    refine ⟨?_, ?_, ?_⟩ <;>
      simpa [public_channel_file_start, public_channel_file_chunk,
        public_channel_file_end, public_channel_file_push] using
        hlen _ st.public_channel_file_events msg h
  · intro h
    have hc : st.public_channel_file_events.length ≥ 100 := by omega
    simp [public_channel_file_start, public_channel_file_push, hc]

theorem C9_ring_bound_witness :
    (stRing.public_channel_messages.length ≤ 100 ∧
      (public_channel_message_http stRing 7
        { channel_id := "c2", from_ := "u2", content := "hi" }).1.public_channel_messages.length
        ≤ 100) ∧
    (stRing.public_channel_messages.length = 100 ∧
      (public_channel_message_http stRing 7
        { channel_id := "c2", from_ := "u2", content := "hi" }).1.public_channel_messages =
        stRing.public_channel_messages.tail ++
          [{ channel_id := "c2", from_ := "u2", content := "hi", sent_at := 7 }]) :=
  ⟨⟨by simp [stRing], (C9_ring_bound stRing 7
      { channel_id := "c2", from_ := "u2", content := "hi" }
      { payload_type := PayloadType.FileStart, from_ := Identifier.Broadcast,
        to_ := Identifier.Broadcast, ts := 0, payload := Json.null, sig := "" }).1
      (by simp [stRing])⟩,
   ⟨by simp [stRing], (C9_ring_bound stRing 7
      { channel_id := "c2", from_ := "u2", content := "hi" }
      { payload_type := PayloadType.FileStart, from_ := Identifier.Broadcast,
        to_ := Identifier.Broadcast, ts := 0, payload := Json.null, sig := "" }).2.1
      (by simp [stRing])⟩⟩

/-- C5: USER_REMOVE removes the user-home mapping only when it still
points at the removing server, and processing the same message twice
leaves the same table state as processing it once. -/
theorem C5_user_remove (st : AppState) (msg : Message) (p : UserRemovePayload) (u : Id)
    (htype : msg.payload_type = PayloadType.UserRemove)
    (hpay : extractUserRemovePayload msg.payload = some p)
    (hid : Id.from_str p.user_id = some u) :
    ∃ st1, handle_user_remove st msg = Except.ok (st1, "ok") ∧
      (alookup st.user_locations u = some p.server_id →
        st1 = { st with user_locations := aremove st.user_locations u }) ∧
      (alookup st.user_locations u ≠ some p.server_id → st1 = st) ∧
      handle_user_remove st1 msg = Except.ok (st1, "ok") := by
  cases hl : alookup st.user_locations u with
  | none =>
    refine ⟨st, ?_, ?_, ?_, ?_⟩
    · simp [handle_user_remove, htype, hpay, hid, hl]
    · intro hc; exact Option.noConfusion hc
    · intro _; rfl
    · simp [handle_user_remove, htype, hpay, hid, hl]
  | some cur =>
    by_cases hcur : cur = p.server_id
    · refine ⟨{ st with user_locations := aremove st.user_locations u }, ?_, ?_, ?_, ?_⟩
      · simp [handle_user_remove, htype, hpay, hid, hl, hcur]
      · intro _; rfl
      · intro hne; exact absurd (by rw [hcur]) hne
      · have hn : alookup (aremove st.user_locations u) u = none := alookup_aremove_self _ _
        simp [handle_user_remove, htype, hpay, hid, hn]
    · refine ⟨st, ?_, ?_, ?_, ?_⟩
      · simp [handle_user_remove, htype, hpay, hid, hl, hcur]
      · intro hc; injection hc with hc2; exact absurd hc2 hcur
      · intro _; rfl
      · simp [handle_user_remove, htype, hpay, hid, hl, hcur]

theorem C5_user_remove_witness :
    msgRemove.payload_type = PayloadType.UserRemove ∧
    extractUserRemovePayload msgRemove.payload =
      some { user_id := "550e8400-e29b-41d4-a716-446655440000",
             server_id := "11111111-2222-3333-4444-555555555555" } ∧
    Id.from_str "550e8400-e29b-41d4-a716-446655440000" = some uuidA ∧
    ∃ st1, handle_user_remove stRemove msgRemove = Except.ok (st1, "ok") ∧
      (alookup stRemove.user_locations uuidA =
          some "11111111-2222-3333-4444-555555555555" →
        st1 = { stRemove with user_locations := aremove stRemove.user_locations uuidA }) ∧
      (alookup stRemove.user_locations uuidA ≠
          some "11111111-2222-3333-4444-555555555555" → st1 = stRemove) ∧
      handle_user_remove st1 msgRemove = Except.ok (st1, "ok") :=
  ⟨rfl, rfl, by decide,
   C5_user_remove stRemove msgRemove
     { user_id := "550e8400-e29b-41d4-a716-446655440000",
       server_id := "11111111-2222-3333-4444-555555555555" } uuidA rfl rfl (by decide)⟩

theorem ainsert_ainsert {α β : Type} [DecidableEq α]
    (l : List (α × β)) (a : α) (b c : β) :
    ainsert (ainsert l a b) a c = ainsert l a c := by
  induction l with
  | nil => simp [ainsert]
  | cons kv rest ih =>
    by_cases h : kv.1 = a
    · simp [ainsert, h]
    · simp [ainsert, h, ih]

/-- C10: the three file-event posts enqueue the raw envelope onto the same
per-recipient pending queue the direct-message path uses, and the two poll
endpoints drain that same queue: whichever runs first returns the whole
queue, after which both return the empty list. -/
theorem C10_shared_pending_queue :
    (∀ (st : AppState) (msg : Message) (u : Id), msg.to_ = Identifier.Id u →
      file_transfer_start_http st msg =
        ({ st with pending_messages := entryPush st.pending_messages u msg }, "ok") ∧
      file_transfer_chunk_http st msg =
        ({ st with pending_messages := entryPush st.pending_messages u msg }, "ok") ∧
      file_transfer_end_http st msg =
        ({ st with pending_messages := entryPush st.pending_messages u msg }, "ok")) ∧
    (∀ (st : AppState) (map : List (String × Json)) (s : String) (u : Id),
      jget map "user_id" = some (Json.str s) → Id.from_str s = some u →
      ∃ st1,
        st1 = { st with pending_messages := ainsert st.pending_messages u [] } ∧
        poll_file_events_http st (Json.obj map) =
          (st1, (alookup st.pending_messages u).getD []) ∧
        poll_direct_messages_http st s =
          Except.ok (st1, (alookup st.pending_messages u).getD []) ∧
        poll_file_events_http st1 (Json.obj map) = (st1, []) ∧
        poll_direct_messages_http st1 s = Except.ok (st1, [])) := by
  constructor
  · intro st msg u hto
    refine ⟨?_, ?_, ?_⟩ <;>
      simp [file_transfer_start_http, file_transfer_chunk_http, file_transfer_end_http,
        file_event_push, hto]
  · intro st map s u hget hid
    refine ⟨{ st with pending_messages := ainsert st.pending_messages u [] }, rfl, ?_, ?_, ?_, ?_⟩
    · simp [poll_file_events_http, hget, hid, Json.asStr, Option.bind]
    · simp [poll_direct_messages_http, hid]
    · simp [poll_file_events_http, hget, hid, Json.asStr, Option.bind,
        alookup_ainsert_self, ainsert_ainsert]
    · simp [poll_direct_messages_http, hid, alookup_ainsert_self, ainsert_ainsert]

theorem C10_shared_pending_queue_witness :
    (msgFileStartQ.to_ = Identifier.Id uuidA ∧
      file_transfer_start_http stQueue msgFileStartQ =
        ({ stQueue with
            pending_messages := entryPush stQueue.pending_messages uuidA msgFileStartQ },
          "ok") ∧
      file_transfer_chunk_http stQueue msgFileStartQ =
        ({ stQueue with
            pending_messages := entryPush stQueue.pending_messages uuidA msgFileStartQ },
          "ok") ∧
      file_transfer_end_http stQueue msgFileStartQ =
        ({ stQueue with
            pending_messages := entryPush stQueue.pending_messages uuidA msgFileStartQ },
          "ok")) ∧
    (jget mapQ "user_id" = some (Json.str "550e8400-e29b-41d4-a716-446655440000") ∧
      Id.from_str "550e8400-e29b-41d4-a716-446655440000" = some uuidA ∧
      ∃ st1,
        st1 = { stQueue with
          pending_messages := ainsert stQueue.pending_messages uuidA [] } ∧
        poll_file_events_http stQueue (Json.obj mapQ) =
          (st1, (alookup stQueue.pending_messages uuidA).getD []) ∧
        poll_direct_messages_http stQueue "550e8400-e29b-41d4-a716-446655440000" =
          Except.ok (st1, (alookup stQueue.pending_messages uuidA).getD []) ∧
        poll_file_events_http st1 (Json.obj mapQ) = (st1, []) ∧
        poll_direct_messages_http st1 "550e8400-e29b-41d4-a716-446655440000" =
          Except.ok (st1, [])) :=
  ⟨⟨rfl, C10_shared_pending_queue.1 stQueue msgFileStartQ uuidA rfl⟩,
   rfl, by decide,
   C10_shared_pending_queue.2 stQueue mapQ
     "550e8400-e29b-41d4-a716-446655440000" uuidA rfl (by decide)⟩

/-- C1 (amended): an inbound MSG_DIRECT with Id endpoints is routed by a
two-way decision only: a recipient matching a local_users key (compared
by string form) gets a USER_DELIVER envelope — authored by this server,
payload carrying sender display name, sender pubkey, ciphertext and
content signature — pushed onto its pending queue; any other recipient,
including one whose user-home entry names a peer server, yields the error
InvalidPayloadType (expected Connected local user): nothing is forwarded
to peers and no USER_NOT_FOUND error exists on this path. -/
theorem C1_direct_message_routing (st : AppState) (msg : Message) (f t : Id)
    (htype : msg.payload_type = PayloadType.MsgDirect)
    (hf : msg.from_ = Identifier.Id f)
    (ht : msg.to_ = Identifier.Id t) :
    (st.local_users.any (fun kv => decide (Id.toString kv.1 = Id.toString t)) = true →
      direct_message_http st msg = Except.ok
        { st with
          pending_messages := entryPush st.pending_messages t
            (deliver_msg st.server_id st.user_locations f t msg) }) ∧
    (st.local_users.any (fun kv => decide (Id.toString kv.1 = Id.toString t)) = false →
      direct_message_http st msg =
        Except.error (ClientError.InvalidPayloadType "Connected local user"
          (Id.toString t))) := by
  constructor
  · intro hfound
    simp [direct_message_http, htype, hf, ht, hfound]
  · intro hfound
    simp [direct_message_http, htype, hf, ht, hfound]

/-- C1 counterexample: with the recipient homed on a known peer server,
the handler forwards nothing — it returns the InvalidPayloadType error
(expected Connected local user), not a SERVER_DELIVER and not
USER_NOT_FOUND. -/
theorem C1_no_peer_forwarding_counterexample :
    alookup stPeerHome.user_locations uuidA =
      some "11111111-2222-3333-4444-555555555555" ∧
    Id.toString uuidB = "11111111-2222-3333-4444-555555555555" ∧
    alookup stPeerHome.server_addrs uuidB = some ("127.0.0.1", 9000) ∧
    direct_message_http stPeerHome msgDirectToRemote =
      Except.error (ClientError.InvalidPayloadType "Connected local user"
        (Id.toString uuidA)) ∧
    Id.toString uuidA = "550e8400-e29b-41d4-a716-446655440000" :=
  ⟨by decide, by decide, by decide, rfl, by decide⟩

theorem C1_direct_message_routing_witness :
    (msgDirectToLocal.payload_type = PayloadType.MsgDirect ∧
      msgDirectToLocal.from_ = Identifier.Id uuidC ∧
      msgDirectToLocal.to_ = Identifier.Id uuidA) ∧
    (stLocalHome.local_users.any
        (fun kv => decide (Id.toString kv.1 = Id.toString uuidA)) = true ∧
      direct_message_http stLocalHome msgDirectToLocal =
        Except.ok
          { stLocalHome with
            pending_messages := entryPush stLocalHome.pending_messages uuidA
              (deliver_msg stLocalHome.server_id stLocalHome.user_locations
                uuidC uuidA msgDirectToLocal) }) ∧
    (stPeerHome.local_users.any
        (fun kv => decide (Id.toString kv.1 = Id.toString uuidA)) = false ∧
      direct_message_http stPeerHome msgDirectToRemote =
        Except.error (ClientError.InvalidPayloadType "Connected local user"
          (Id.toString uuidA))) :=
  ⟨⟨rfl, rfl, rfl⟩,
   ⟨by decide,
    (C1_direct_message_routing stLocalHome msgDirectToLocal uuidC uuidA
      rfl rfl rfl).1 (by decide)⟩,
   ⟨by decide,
    (C1_direct_message_routing stPeerHome msgDirectToRemote uuidC uuidA
      rfl rfl rfl).2 (by decide)⟩⟩

/-- C2 (amended): POST /api/user_hello with a valid user_id inserts the
user into local_users (pubkey pinned exactly when the supplied pubkey is
non-empty), stamps last_heartbeat = now, and records the display name —
falling back to the id string — into the user-location table; it does not
write the marker value local into that table and it sends no
USER_ADVERTISE envelope to any peer. -/
theorem C2_user_hello (st : AppState) (now : Nat)
    (payload : UserHelloHttpPayload) (id : Id)
    (hid : Id.from_str payload.user_id = some id) :
    user_hello_http st now payload =
      ({ st with
          local_users := ainsert st.local_users id
            { pubkey := if payload.pubkey ≠ "" then some payload.pubkey else none }
          user_heartbeat := ainsert st.user_heartbeat id now
          user_locations := ainsert st.user_locations id
            ((payload.meta.bind (fun m => m.display_name)).getD payload.user_id) },
       [], "ok") := by
  cases hdn : payload.meta.bind (fun m => m.display_name) with
  | none => simp [user_hello_http, hid, hdn]
  | some name => simp [user_hello_http, hid, hdn]

/-- C2 counterexample: after the hello, the user-location table holds the
display name Alice — not the marker local — and, although a peer is
known, the handler sends no envelope at all (in particular no
USER_ADVERTISE). -/
theorem C2_no_advertise_counterexample :
    alookup (user_hello_http stHello 57 payloadHello).1.user_locations uuidA =
      some "Alice" ∧
    ("Alice" : String) ≠ "local" ∧
    stHello.servers ≠ [] ∧
    (user_hello_http stHello 57 payloadHello).2.1 = ([] : List Message) :=
  ⟨by decide, by decide, by decide, rfl⟩

theorem C2_user_hello_witness :
    Id.from_str payloadHello.user_id = some uuidA ∧
    user_hello_http stHello 57 payloadHello =
      ({ stHello with
          local_users := ainsert stHello.local_users uuidA
            { pubkey := if payloadHello.pubkey ≠ "" then some payloadHello.pubkey else none }
          user_heartbeat := ainsert stHello.user_heartbeat uuidA 57
          user_locations := ainsert stHello.user_locations uuidA
            ((payloadHello.meta.bind (fun m => m.display_name)).getD payloadHello.user_id) },
       [], "ok") :=
  ⟨by decide, C2_user_hello stHello 57 payloadHello uuidA (by decide)⟩

theorem alookup_mem {α β : Type} [DecidableEq α]
    (l : List (α × β)) (a : α) (b : β) (h : alookup l a = some b) : (a, b) ∈ l := by
  induction l with
  | nil => cases h
  | cons kv rest ih =>
    by_cases hk : kv.1 = a
    · simp only [alookup, hk, if_true] at h
      injection h with h
      rw [show kv = (a, b) from by rw [Prod.ext_iff]; exact ⟨hk, h⟩]
      exact List.mem_cons_self _ _
    · simp only [alookup, hk, if_false] at h
      exact List.mem_cons_of_mem _ (ih h)

theorem foldl_sweepRemove_none (ids : List Id) (s : AppState) (u : Id)
    (h1 : alookup s.user_heartbeat u = none)
    (h2 : alookup s.local_users u = none)
    (h3 : alookup s.user_locations u = none) :
    alookup (ids.foldl sweepRemove s).user_heartbeat u = none ∧
    alookup (ids.foldl sweepRemove s).local_users u = none ∧
    alookup (ids.foldl sweepRemove s).user_locations u = none := by
  induction ids generalizing s with
  | nil => exact ⟨h1, h2, h3⟩
  | cons i ids ih =>
    exact ih (sweepRemove s i)
      (alookup_aremove_none _ _ _ h1) (alookup_aremove_none _ _ _ h2)
      (alookup_aremove_none _ _ _ h3)

theorem foldl_sweepRemove_mem (ids : List Id) (s : AppState) (u : Id) (hu : u ∈ ids) :
    alookup (ids.foldl sweepRemove s).user_heartbeat u = none ∧
    alookup (ids.foldl sweepRemove s).local_users u = none ∧
    alookup (ids.foldl sweepRemove s).user_locations u = none := by
  induction ids generalizing s with
  | nil => cases hu
  | cons i ids ih =>
    rcases List.mem_cons.mp hu with rfl | hmem
    · by_cases hagain : u ∈ ids
      · exact ih (sweepRemove s u) hagain
      · exact foldl_sweepRemove_none ids (sweepRemove s u) u
          (alookup_aremove_self _ _) (alookup_aremove_self _ _) (alookup_aremove_self _ _)
    · exact ih (sweepRemove s i) hmem

/-- C3 (amended): every local user whose last heartbeat is more than 45
seconds old is removed, within one tick of the sweep task, from
local_users, the user-location table and last_heartbeat; the tick gossips
nothing — no USER_REMOVE envelope is sent to peers. -/
theorem C3_stale_sweep (st : AppState) (now : Nat) (u : Id) (last : Nat)
    (hhb : alookup st.user_heartbeat u = some last)
    (hstale : 45 < now - last) :
    alookup (heartbeat_cleanup_tick st now).1.user_heartbeat u = none ∧
    alookup (heartbeat_cleanup_tick st now).1.local_users u = none ∧
    alookup (heartbeat_cleanup_tick st now).1.user_locations u = none ∧
    (heartbeat_cleanup_tick st now).2 = [] := by
  have hmem : (u, last) ∈ st.user_heartbeat := alookup_mem _ _ _ hhb
  have hfilter : (u, last) ∈ st.user_heartbeat.filter (fun kv => decide (45 < now - kv.2)) := by
    rw [List.mem_filter]
    exact ⟨hmem, by simpa using hstale⟩
  have hids : u ∈ (st.user_heartbeat.filter (fun kv => decide (45 < now - kv.2))).map Prod.fst :=
    List.mem_map.mpr ⟨(u, last), hfilter, rfl⟩
  have h := foldl_sweepRemove_mem _ st u hids
  exact ⟨h.1, h.2.1, h.2.2, rfl⟩

/-- C3 counterexample: one tick does remove the stale user, but — with a
peer known — it sends no envelope at all, so no USER_REMOVE is gossiped. -/
theorem C3_no_gossip_counterexample :
    alookup stSweep.user_heartbeat uuidA = some 10 ∧
    45 < 100 - 10 ∧
    stSweep.servers ≠ [] ∧
    alookup (heartbeat_cleanup_tick stSweep 100).1.local_users uuidA = none ∧
    (heartbeat_cleanup_tick stSweep 100).2 = ([] : List Message) :=
  ⟨by decide, by decide, by decide, by decide, rfl⟩

theorem C3_stale_sweep_witness :
    alookup stSweep.user_heartbeat uuidA = some 10 ∧ 45 < 100 - 10 ∧
    (alookup (heartbeat_cleanup_tick stSweep 100).1.user_heartbeat uuidA = none ∧
     alookup (heartbeat_cleanup_tick stSweep 100).1.local_users uuidA = none ∧
     alookup (heartbeat_cleanup_tick stSweep 100).1.user_locations uuidA = none ∧
     (heartbeat_cleanup_tick stSweep 100).2 = []) :=
  ⟨by decide, by decide, C3_stale_sweep stSweep 100 uuidA 10 (by decide) (by decide)⟩

/-- C6: the WELCOME composed for a HELLO_JOIN echoes the joiner's
self-claimed id as assigned_id, records the joiner (address and pubkey),
and lists exactly the known peers other than the joiner that have both an
address and a pinned pubkey, and exactly the known users that have a
home-server entry and a known pubkey. -/
theorem C6_welcome_composition (st : AppState) (msg : Message)
    (p : ServerHelloJoinPayload) (j : Id)
    (htype : msg.payload_type = PayloadType.ServerHelloJoin)
    (hpay : extractServerHelloJoinPayload msg.payload = some p)
    (hfrom : msg.from_ = Identifier.Id j) :
    ∃ st1 w, handle_server_hello_join st msg = Except.ok (st1, w) ∧
      w.assigned_id = Id.toString j ∧
      alookup st1.server_addrs j = some (p.host, p.port) ∧
      alookup st1.server_pubkeys j = some p.pubkey ∧
      (∀ info : ServerInfo, info ∈ w.servers ↔
        ∃ sid h pt pk, (sid, (h, pt)) ∈ st1.server_addrs ∧ sid ≠ j ∧
          alookup st1.server_pubkeys sid = some pk ∧
          info = { server_id := Id.toString sid, host := h, port := pt, pubkey := pk }) ∧
      (∀ ci : ClientInfo, ci ∈ w.clients ↔
        ∃ uid sloc pk, (uid, sloc) ∈ st1.user_locations ∧
          alookup st1.user_pubkeys uid = some pk ∧
          ci = { user_id := Id.toString uid, pubkey := pk, server_id := sloc }) := by
  simp only [handle_server_hello_join, htype, hpay, hfrom, Identifier.as_id,
    ne_eq, not_true_eq_false, if_false, reduceCtorEq]
  refine ⟨_, _, rfl, rfl, alookup_ainsert_self _ _ _, alookup_ainsert_self _ _ _, ?_, ?_⟩
  · intro info
    rw [List.mem_filterMap]
    constructor
    · rintro ⟨a, ha, hfa⟩
      by_cases hne : a.1 = j
      · simp [hne] at hfa
      · cases hpk : alookup (ainsert st.server_pubkeys j p.pubkey) a.1 with
        | none => simp [hne, hpk] at hfa
        | some pk =>
          simp only [hne, hpk, ne_eq, not_false_eq_true, if_true] at hfa
          injection hfa with hfa
          exact ⟨a.1, a.2.1, a.2.2, pk, ha, hne, hpk, hfa.symm⟩
    · rintro ⟨sid, h, pt, pk, hmem, hne, hpk, rfl⟩
      exact ⟨(sid, (h, pt)), hmem, by simp [hne, hpk]⟩
  · intro ci
    rw [List.mem_filterMap]
    constructor
    · rintro ⟨a, ha, hfa⟩
      cases hpk : alookup st.user_pubkeys a.1 with
      | none => simp [hpk] at hfa
      | some pk =>
        simp only [hpk] at hfa
        injection hfa with hfa
        exact ⟨a.1, a.2, pk, ha, hpk, hfa.symm⟩
    · rintro ⟨uid, sloc, pk, hmem, hpk, rfl⟩
      exact ⟨(uid, sloc), hmem, by simp [hpk]⟩

theorem C6_welcome_composition_witness :
    msgJoin.payload_type = PayloadType.ServerHelloJoin ∧
    extractServerHelloJoinPayload msgJoin.payload =
      some { host := "10.0.0.3", port := 8082, pubkey := "D-pubkey" } ∧
    msgJoin.from_ = Identifier.Id uuidD ∧
    (∃ st1 w, handle_server_hello_join stJoin msgJoin = Except.ok (st1, w) ∧
      w.assigned_id = Id.toString uuidD ∧
      alookup st1.server_addrs uuidD = some ("10.0.0.3", 8082) ∧
      alookup st1.server_pubkeys uuidD = some "D-pubkey" ∧
      (∀ info : ServerInfo, info ∈ w.servers ↔
        ∃ sid h pt pk, (sid, (h, pt)) ∈ st1.server_addrs ∧ sid ≠ uuidD ∧
          alookup st1.server_pubkeys sid = some pk ∧
          info = { server_id := Id.toString sid, host := h, port := pt, pubkey := pk }) ∧
      (∀ ci : ClientInfo, ci ∈ w.clients ↔
        ∃ uid sloc pk, (uid, sloc) ∈ st1.user_locations ∧
          alookup st1.user_pubkeys uid = some pk ∧
          ci = { user_id := Id.toString uid, pubkey := pk, server_id := sloc })) :=
  ⟨rfl, rfl, rfl,
   C6_welcome_composition stJoin msgJoin
     { host := "10.0.0.3", port := 8082, pubkey := "D-pubkey" } uuidD rfl rfl rfl⟩

theorem alookup_entryPush_self (l : List (Id × List Message)) (a : Id) (m : Message) :
    alookup (entryPush l a m) a = some ((alookup l a).getD [] ++ [m]) := by
  unfold entryPush
  cases hl : alookup l a with
  | none => simp [alookup_ainsert_self]
  | some q => simp [alookup_ainsert_self]

theorem routeAll_spec (msgs : List Message) (st : AppState) (u : Id)
    (hlocal : st.local_users.any
      (fun kv => decide (Id.toString kv.1 = Id.toString u)) = true)
    (hmsgs : ∀ m ∈ msgs, m.payload_type = PayloadType.MsgDirect ∧
      m.to_ = Identifier.Id u ∧ ∃ f, m.from_ = Identifier.Id f) :
    ∃ st1, routeAll st msgs = Except.ok st1 ∧
      st1.local_users = st.local_users ∧
      st1.user_locations = st.user_locations ∧
      st1.server_id = st.server_id ∧
      (alookup st1.pending_messages u).getD [] =
        (alookup st.pending_messages u).getD [] ++
          msgs.map (deliverOf st.server_id st.user_locations u) := by
  induction msgs generalizing st with
  | nil => exact ⟨st, rfl, rfl, rfl, rfl, by simp⟩
  | cons m ms ih =>
    obtain ⟨htype, hto, f, hf⟩ := hmsgs m (List.mem_cons_self _ _)
    set dm := deliver_msg st.server_id st.user_locations f u m with hdm
    set stm := { st with pending_messages := entryPush st.pending_messages u dm }
      with hstm
    have hrun : direct_message_http st m = Except.ok stm := by
      simp [direct_message_http, htype, hf, hto, hlocal, hstm, hdm]
    obtain ⟨st1, hroute, hlu, hul, hsid, hpend⟩ :=
      ih stm hlocal (fun x hx => hmsgs x (List.mem_cons_of_mem _ hx))
    refine ⟨st1, ?_, hlu, hul, hsid, ?_⟩
    · unfold routeAll
      rw [hrun]
      exact hroute
    · rw [hpend]
      simp only [hstm, alookup_entryPush_self, Option.getD_some, List.map_cons]
      rw [List.append_assoc]
      simp [deliverOf, hf, hdm]

/-- C4: after N MSG_DIRECTs are routed to a locally-hosted user whose
mailbox starts empty, one poll returns exactly the N USER_DELIVER
envelopes in routing order, and an immediate second poll returns the
empty list. -/
theorem C4_mailbox_drain (st : AppState) (msgs : List Message) (u : Id) (s : String)
    (hs : Id.from_str s = some u)
    (hlocal : st.local_users.any
      (fun kv => decide (Id.toString kv.1 = Id.toString u)) = true)
    (hempty : (alookup st.pending_messages u).getD [] = [])
    (hmsgs : ∀ m ∈ msgs, m.payload_type = PayloadType.MsgDirect ∧
      m.to_ = Identifier.Id u ∧ ∃ f, m.from_ = Identifier.Id f) :
    ∃ st1 st2, routeAll st msgs = Except.ok st1 ∧
      poll_direct_messages_http st1 s =
        Except.ok (st2, msgs.map (deliverOf st.server_id st.user_locations u)) ∧
      poll_direct_messages_http st2 s = Except.ok (st2, []) := by
  obtain ⟨st1, hroute, hlu, hul, hsid, hpend⟩ := routeAll_spec msgs st u hlocal hmsgs
  rw [hempty, List.nil_append] at hpend
  refine ⟨st1,
    { st1 with pending_messages := ainsert st1.pending_messages u [] },
    hroute, ?_, ?_⟩
  · simp [poll_direct_messages_http, hs, hpend]
  · simp [poll_direct_messages_http, hs, alookup_ainsert_self, ainsert_ainsert]

theorem C4_mailbox_drain_witness :
    Id.from_str "550e8400-e29b-41d4-a716-446655440000" = some uuidA ∧
    stLocalHome.local_users.any
      (fun kv => decide (Id.toString kv.1 = Id.toString uuidA)) = true ∧
    (alookup stLocalHome.pending_messages uuidA).getD [] = [] ∧
    (∀ m ∈ [msgDirectToLocal, msgDirectToLocal2],
      m.payload_type = PayloadType.MsgDirect ∧
      m.to_ = Identifier.Id uuidA ∧ ∃ f, m.from_ = Identifier.Id f) ∧
    (∃ st1 st2,
      routeAll stLocalHome [msgDirectToLocal, msgDirectToLocal2] = Except.ok st1 ∧
      poll_direct_messages_http st1 "550e8400-e29b-41d4-a716-446655440000" =
        Except.ok (st2, [msgDirectToLocal, msgDirectToLocal2].map
          (deliverOf stLocalHome.server_id stLocalHome.user_locations uuidA)) ∧
      poll_direct_messages_http st2 "550e8400-e29b-41d4-a716-446655440000" =
        Except.ok (st2, [])) := by
  have hmsgs : ∀ m ∈ [msgDirectToLocal, msgDirectToLocal2],
      m.payload_type = PayloadType.MsgDirect ∧
      m.to_ = Identifier.Id uuidA ∧ ∃ f, m.from_ = Identifier.Id f := by
    intro m hm
    rcases List.mem_cons.mp hm with rfl | hm2
    · exact ⟨rfl, rfl, uuidC, rfl⟩
    · rcases List.mem_cons.mp hm2 with rfl | hm3
      · exact ⟨rfl, rfl, uuidC, rfl⟩
      · cases hm3
  exact ⟨by decide, by decide, rfl, hmsgs,
    C4_mailbox_drain stLocalHome [msgDirectToLocal, msgDirectToLocal2] uuidA
      "550e8400-e29b-41d4-a716-446655440000" (by decide) (by decide) rfl hmsgs⟩

theorem charToNat_inj (c d : Char) (h : c.toNat = d.toNat) : c = d := by
  cases c with | mk cv hc => cases d with | mk dv hd =>
  simp only [Char.toNat] at h
  congr 1
  exact UInt32.toNat.inj h

theorem charOfNat_toNat (n : Nat) (h : n < 128) : (Char.ofNat n).toNat = n := by
  have hv : n.isValidChar := Or.inl (by omega)
  rw [Char.ofNat, dif_pos hv]
  rfl

theorem charOfNat_self (c : Char) (h : c.toNat < 128) : Char.ofNat c.toNat = c :=
  charToNat_inj _ _ (charOfNat_toNat c.toNat h)

theorem hexVal_lt (c : Char) (v : Nat) (h : hexVal c = some v) : v < 16 := by
  unfold hexVal at h
  split_ifs at h <;> injection h with h <;> omega

theorem hexChar_toLowerHex (c : Char) (v : Nat) (h : hexVal c = some v) :
    hexChar v = toLowerHex c := by
  unfold hexVal at h
  split_ifs at h with h1 h2 h3 <;> injection h with h
  · have hv : v < 10 := by omega
    have : 48 + v = c.toNat := by omega
    rw [hexChar, if_pos hv, this, toLowerHex, if_neg (by omega), charOfNat_self c (by omega)]
  · have hv : ¬ v < 10 := by omega
    have : 87 + v = c.toNat := by omega
    rw [hexChar, if_neg hv, this, toLowerHex, if_neg (by omega), charOfNat_self c (by omega)]
  · have hv : ¬ v < 10 := by omega
    have : 87 + v = c.toNat + 32 := by omega
    rw [hexChar, if_neg hv, this, toLowerHex, if_pos (by omega)]

theorem hexVal_hexChar (v : Nat) (h : v < 16) : hexVal (hexChar v) = some v := by
  by_cases hv : v < 10
  · have ht : (Char.ofNat (48 + v)).toNat = 48 + v := charOfNat_toNat _ (by omega)
    rw [hexChar, if_pos hv, hexVal]
    simp only [ht]
    rw [if_pos (by omega)]
    congr 1
    omega
  · have ht : (Char.ofNat (87 + v)).toNat = 87 + v := charOfNat_toNat _ (by omega)
    rw [hexChar, if_neg hv, hexVal]
    simp only [ht]
    rw [if_neg (by omega), if_pos (by omega)]
    congr 1
    omega

theorem hexVal_ne_dash (c : Char) (v : Nat) (h : hexVal c = some v) : c ≠ '-' := by
  intro he
  rw [he] at h
  cases h

theorem parseHexList_sound (ds : List Char) (u : List Nat)
    (h : parseHexList ds = some u) :
    u.map hexChar = ds.map toLowerHex ∧ (∀ v ∈ u, v < 16) ∧
    u.length = ds.length ∧ (∀ c ∈ ds, c ≠ '-') := by
  induction ds generalizing u with
  | nil =>
    injection h with h
    subst h
    refine ⟨rfl, ?_, rfl, ?_⟩ <;> intro v hv <;> cases hv
  | cons c cs ih =>
    unfold parseHexList at h
    cases hc : hexVal c with
    | none => rw [hc] at h; cases h
    | some v =>
      rw [hc] at h
      cases hcs : parseHexList cs with
      | none => rw [hcs] at h; cases h
      | some vs =>
        rw [hcs] at h
        injection h with h
        subst h
        obtain ⟨hmap, hlt, hlen, hfil⟩ := ih vs hcs
        refine ⟨?_, ?_, ?_, ?_⟩
        · simp only [List.map_cons, hmap, hexChar_toLowerHex c v hc]
        · intro x hx
          rcases List.mem_cons.mp hx with rfl | hx2
          · exact hexVal_lt c x hc
          · exact hlt x hx2
        · simp [hlen]
        · intro x hx
          rcases List.mem_cons.mp hx with rfl | hx2
          · exact hexVal_ne_dash x v hc
          · exact hfil x hx2

theorem parseHexList_complete (u : List Nat) (h : ∀ v ∈ u, v < 16) :
    parseHexList (u.map hexChar) = some u := by
  induction u with
  | nil => rfl
  | cons v vs ih =>
    simp only [List.map_cons]
    unfold parseHexList
    rw [hexVal_hexChar v (h v (List.mem_cons_self _ _)),
      ih (fun x hx => h x (List.mem_cons_of_mem _ hx))]

theorem hsplit_sound (cs a b c d e : List Char)
    (h : hsplit cs = some (a, b, c, d, e)) :
    cs = a ++ '-' :: (b ++ '-' :: (c ++ '-' :: (d ++ '-' :: e))) ∧
    a.length = 8 ∧ b.length = 4 ∧ c.length = 4 ∧ d.length = 4 ∧ e.length = 12 := by
  unfold hsplit at h
  split at h
  case _ t1 heq1 =>
    split at h
    case _ t2 heq2 =>
      split at h
      case _ t3 heq3 =>
        split at h
        case _ e5 heq4 =>
          split_ifs at h with hlen
          injection h with h
          injection h with h1 h
          injection h with h2 h
          injection h with h3 h
          injection h with h4 h5
          subst h1
          subst h2
          subst h3
          subst h4
          subst h5
          obtain ⟨l1, l2, l3, l4, l5⟩ := hlen
          refine ⟨?_, l1, l2, l3, l4, l5⟩
          calc cs = cs.take 8 ++ cs.drop 8 := (List.take_append_drop 8 cs).symm
            _ = cs.take 8 ++ '-' :: t1 := by rw [heq1]
            _ = cs.take 8 ++ '-' :: (t1.take 4 ++ t1.drop 4) := by
                  rw [List.take_append_drop]
            _ = cs.take 8 ++ '-' :: (t1.take 4 ++ '-' :: t2) := by rw [heq2]
            _ = cs.take 8 ++ '-' :: (t1.take 4 ++ '-' :: (t2.take 4 ++ t2.drop 4)) := by
                  rw [List.take_append_drop]
            _ = cs.take 8 ++ '-' :: (t1.take 4 ++ '-' :: (t2.take 4 ++ '-' :: t3)) := by
                  rw [heq3]
            _ = cs.take 8 ++ '-' :: (t1.take 4 ++ '-' :: (t2.take 4 ++ '-' ::
                  (t3.take 4 ++ t3.drop 4))) := by rw [List.take_append_drop]
            _ = cs.take 8 ++ '-' :: (t1.take 4 ++ '-' :: (t2.take 4 ++ '-' ::
                  (t3.take 4 ++ '-' :: e5))) := by rw [heq4]
        case _ => cases h
      case _ => cases h
    case _ => cases h
  case _ => cases h

theorem hsplit_complete (a b c d e : List Char)
    (ha : a.length = 8) (hb : b.length = 4) (hc : c.length = 4)
    (hd : d.length = 4) (he : e.length = 12) :
    hsplit (a ++ '-' :: (b ++ '-' :: (c ++ '-' :: (d ++ '-' :: e)))) =
      some (a, b, c, d, e) := by
  have hd8 : (a ++ '-' :: (b ++ '-' :: (c ++ '-' :: (d ++ '-' :: e)))).drop 8 =
      '-' :: (b ++ '-' :: (c ++ '-' :: (d ++ '-' :: e))) := by
    rw [← ha]
    exact List.drop_left a _
  have ht8 : (a ++ '-' :: (b ++ '-' :: (c ++ '-' :: (d ++ '-' :: e)))).take 8 = a := by
    rw [← ha]
    exact List.take_left _ _
  have hd4b : (b ++ '-' :: (c ++ '-' :: (d ++ '-' :: e))).drop 4 =
      '-' :: (c ++ '-' :: (d ++ '-' :: e)) := by
    rw [← hb]
    exact List.drop_left b _
  have ht4b : (b ++ '-' :: (c ++ '-' :: (d ++ '-' :: e))).take 4 = b := by
    rw [← hb]
    exact List.take_left _ _
  have hd4c : (c ++ '-' :: (d ++ '-' :: e)).drop 4 = '-' :: (d ++ '-' :: e) := by
    rw [← hc]
    exact List.drop_left c _
  have ht4c : (c ++ '-' :: (d ++ '-' :: e)).take 4 = c := by
    rw [← hc]
    exact List.take_left _ _
  have hd4d : (d ++ '-' :: e).drop 4 = '-' :: e := by
    rw [← hd]
    exact List.drop_left d _
  have ht4d : (d ++ '-' :: e).take 4 = d := by
    rw [← hd]
    exact List.take_left _ _
  simp only [hsplit, hd8, ht8, hd4b, ht4b, hd4c, ht4c, hd4d, ht4d, ha, hb, hc, hd, he]
  simp

theorem parseHyphenated_canon (cs : List Char) (u : Uuid)
    (h : parseHyphenated cs = some u) :
    Uuid.toChars u =
      insertHyphens ((cs.filter (fun x => !decide (x = '-'))).map toLowerHex) := by
  unfold parseHyphenated at h
  cases hsp : hsplit cs with
  | none => rw [hsp] at h; cases h
  | some g =>
    obtain ⟨a, b, c, d, e⟩ := g
    rw [hsp] at h
    obtain ⟨hshape, ha, hb, hc, hd, he⟩ := hsplit_sound cs a b c d e hsp
    obtain ⟨hmap, hlt, hlen, hno⟩ := parseHexList_sound _ u h
    have fa : a.filter (fun x => !decide (x = '-')) = a :=
      List.filter_eq_self.mpr (fun x hx => by simp [hno x (by simp [hx])])
    have fb : b.filter (fun x => !decide (x = '-')) = b :=
      List.filter_eq_self.mpr (fun x hx => by simp [hno x (by simp [hx])])
    have fc : c.filter (fun x => !decide (x = '-')) = c :=
      List.filter_eq_self.mpr (fun x hx => by simp [hno x (by simp [hx])])
    have fd : d.filter (fun x => !decide (x = '-')) = d :=
      List.filter_eq_self.mpr (fun x hx => by simp [hno x (by simp [hx])])
    have fe : e.filter (fun x => !decide (x = '-')) = e :=
      List.filter_eq_self.mpr (fun x hx => by simp [hno x (by simp [hx])])
    have hfil : cs.filter (fun x => !decide (x = '-')) = a ++ b ++ c ++ d ++ e := by
      rw [hshape]
      simp [List.filter_append, List.filter_cons, fa, fb, fc, fd, fe]
    rw [hfil, Uuid.toChars, hmap]

/-- Every accepted UUID wire string prints back as its canonical form. -/
theorem parseChars_canon (cs : List Char) (u : Uuid) (h : Uuid.parseChars cs = some u) :
    Uuid.toChars u = canonChars cs := by
  unfold Uuid.parseChars at h
  split_ifs at h with h32 h36 h38 h45
  · obtain ⟨hmap, hlt, hlen, hno⟩ := parseHexList_sound cs u h
    have hfil : cs.filter (fun x => !decide (x = '-')) = cs :=
      List.filter_eq_self.mpr (fun x hx => by simp [hno x hx])
    unfold canonChars stripUuidWrappers
    rw [if_neg (by omega), if_neg (by omega), hfil, Uuid.toChars, hmap]
  · have hcan : canonChars cs =
        insertHyphens ((cs.filter (fun x => !decide (x = '-'))).map toLowerHex) := by
      unfold canonChars stripUuidWrappers
      rw [if_neg (by omega), if_neg (by omega)]
    rw [hcan]
    exact parseHyphenated_canon cs u h
  · split at h
    case _ rest =>
      split_ifs at h with hlast
      have hc := parseHyphenated_canon _ _ h
      unfold canonChars stripUuidWrappers
      rw [if_neg (by omega), if_pos (by omega)]
      simpa using hc
    case _ hne => cases h
  · split at h
    case _ rest =>
      have hc := parseHyphenated_canon _ _ h
      unfold canonChars stripUuidWrappers
      rw [if_pos (by omega)]
      simpa using hc
    case _ hne => cases h

theorem insertHyphens_length (ds : List Char) (h : ds.length = 32) :
    (insertHyphens ds).length = 36 := by
  simp [insertHyphens, h]

theorem concat_groups (ds : List Char) :
    ds.take 8 ++ (ds.drop 8).take 4 ++ (ds.drop 12).take 4 ++ (ds.drop 16).take 4 ++
      ds.drop 20 = ds := by
  have h12 : ds.take 12 = ds.take 8 ++ (ds.drop 8).take 4 := List.take_add ds 8 4
  have h16 : ds.take 16 = ds.take 12 ++ (ds.drop 12).take 4 := List.take_add ds 12 4
  have h20 : ds.take 20 = ds.take 16 ++ (ds.drop 16).take 4 := List.take_add ds 16 4
  calc ds.take 8 ++ (ds.drop 8).take 4 ++ (ds.drop 12).take 4 ++ (ds.drop 16).take 4 ++
        ds.drop 20
      = ds.take 20 ++ ds.drop 20 := by rw [h20, h16, h12]
    _ = ds := List.take_append_drop 20 ds

/-- The canonical printed form of a well-formed UUID parses back to it. -/
theorem parseChars_toChars (u : Uuid) (hu : Uuid.valid u) :
    Uuid.parseChars (Uuid.toChars u) = some u := by
  obtain ⟨hlen, hlt⟩ := hu
  have hds : (u.map hexChar).length = 32 := by simp [hlen]
  have hlen36 : (Uuid.toChars u).length = 36 := insertHyphens_length _ hds
  unfold Uuid.parseChars
  rw [if_neg (by omega), if_pos hlen36]
  unfold Uuid.toChars insertHyphens
  unfold parseHyphenated
  simp only [List.cons_append, List.append_assoc]
  rw [hsplit_complete ((u.map hexChar).take 8) (((u.map hexChar).drop 8).take 4)
    (((u.map hexChar).drop 12).take 4) (((u.map hexChar).drop 16).take 4)
    ((u.map hexChar).drop 20)
    (by simp [hds]) (by simp [hds]) (by simp [hds]) (by simp [hds]) (by simp [hds])]
  have hconcat := concat_groups (u.map hexChar)
  simp only [← List.append_assoc] at hconcat ⊢
  rw [hconcat]
  exact parseHexList_complete u hlt

/-- C7 (amended): FromStr parsing is extensionally star / UUID / bootstrap
(in either test order, since the star never parses as a UUID); Broadcast
serializes to exactly the star; every accepted UUID string parses to an
Id whose serialization is the canonicalized input, and canonical forms
roundtrip exactly; every other string roundtrips verbatim as a bootstrap
address; wire deserialization additionally maps the literal string public
to a freshly generated random Id and otherwise agrees with FromStr. -/
theorem C7_identifier_roundtrip :
    (∀ s : String, Identifier.from_str s =
      (match Id.from_str s with
       | some id => Identifier.Id id
       | none => if s = "*" then Identifier.Broadcast else Identifier.Bootstrap s)) ∧
    Identifier.as_str Identifier.Broadcast = "*" ∧
    (∀ (s : String) (u : Uuid), Id.from_str s = some u →
      Identifier.from_str s = Identifier.Id u ∧
      (Identifier.as_str (Identifier.Id u)).data = canonChars s.data) ∧
    (∀ u : Uuid, Uuid.valid u → Uuid.parseChars (Uuid.toChars u) = some u) ∧
    (∀ s : String, Id.from_str s = none → s ≠ "*" →
      Identifier.from_str s = Identifier.Bootstrap s ∧
      Identifier.as_str (Identifier.Bootstrap s) = s) ∧
    (∀ fresh : Uuid, Identifier.deserialize fresh "public" = Identifier.Id fresh) ∧
    (∀ (fresh : Uuid) (s : String), s ≠ "public" →
      Identifier.deserialize fresh s = Identifier.from_str s) := by
  have hstarnone : Id.from_str "*" = none := by decide
  refine ⟨?_, rfl, ?_, parseChars_toChars, ?_, ?_, ?_⟩
  · intro s
    by_cases hstar : s = "*"
    · subst hstar
      rw [hstarnone]
      simp [Identifier.from_str, hstarnone]
    · cases hp : Id.from_str s with
      | some id => simp [Identifier.from_str, hstar, hp]
      | none => simp [Identifier.from_str, hstar, hp]
  · intro s u hp
    have hstar : s ≠ "*" := by
      rintro rfl
      rw [hstarnone] at hp
      cases hp
    refine ⟨by simp [Identifier.from_str, hstar, hp], ?_⟩
    exact parseChars_canon s.data u hp
  · intro s hp hstar
    exact ⟨by simp [Identifier.from_str, hstar, hp], rfl⟩
  · intro fresh
    rfl
  · intro fresh s hs
    by_cases hstar : s = "*"
    · subst hstar
      simp [Identifier.deserialize, Identifier.from_str]
    · simp [Identifier.deserialize, Identifier.from_str, hstar, hs]

/-- C7 counterexample: wire deserialization does not treat every
non-star, non-UUID string as a bootstrap address — the literal string
public becomes a (random) Id instead. -/
theorem C7_parse_not_bootstrap_counterexample :
    Identifier.deserialize uuidA "public" = Identifier.Id uuidA ∧
    Identifier.deserialize uuidA "public" ≠ Identifier.Bootstrap "public" ∧
    Id.from_str "public" = none ∧ ("public" : String) ≠ "*" := by decide

theorem C7_identifier_roundtrip_witness :
    (Id.from_str "550E8400-E29B-41D4-A716-446655440000" = some uuidA ∧
      Identifier.from_str "550E8400-E29B-41D4-A716-446655440000" = Identifier.Id uuidA ∧
      (Identifier.as_str (Identifier.Id uuidA)).data =
        canonChars ("550E8400-E29B-41D4-A716-446655440000" : String).data ∧
      Identifier.as_str (Identifier.Id uuidA) = "550e8400-e29b-41d4-a716-446655440000") ∧
    (Uuid.valid uuidA ∧ Uuid.parseChars (Uuid.toChars uuidA) = some uuidA) ∧
    (Id.from_str "127.0.0.1:8080" = none ∧ ("127.0.0.1:8080" : String) ≠ "*" ∧
      Identifier.from_str "127.0.0.1:8080" = Identifier.Bootstrap "127.0.0.1:8080" ∧
      Identifier.as_str (Identifier.Bootstrap "127.0.0.1:8080") = "127.0.0.1:8080") ∧
    Identifier.deserialize uuidB "public" = Identifier.Id uuidB ∧
    (("42" : String) ≠ "public" ∧
      Identifier.deserialize uuidB "42" = Identifier.from_str "42") :=
  ⟨⟨by decide,
    (C7_identifier_roundtrip.2.2.1 "550E8400-E29B-41D4-A716-446655440000" uuidA
      (by decide)).1,
    (C7_identifier_roundtrip.2.2.1 "550E8400-E29B-41D4-A716-446655440000" uuidA
      (by decide)).2,
    by decide⟩,
   ⟨by unfold Uuid.valid; decide,
    C7_identifier_roundtrip.2.2.2.1 uuidA (by unfold Uuid.valid; decide)⟩,
   ⟨by decide, by decide,
    (C7_identifier_roundtrip.2.2.2.2.1 "127.0.0.1:8080" (by decide) (by decide)).1,
    (C7_identifier_roundtrip.2.2.2.2.1 "127.0.0.1:8080" (by decide) (by decide)).2⟩,
   C7_identifier_roundtrip.2.2.2.2.2.1 uuidB,
   ⟨by decide, C7_identifier_roundtrip.2.2.2.2.2.2 uuidB "42" (by decide)⟩⟩

end SecureChat
